import Mathlib

set_option maxRecDepth 8192

/-!
Verification of the chi-opencensus-tracing middleware.

The definitions below are a shallow embedding of the Go sources:
  - `middleware/opencensus_tracing.go` (span lifecycle, propagation codec,
    message-event correlation, payload attribute truncation);
  - the final revision of the decorator file (response-writer decorator and
    the eager request-body decorator, consistent with the test suite);
  - the relevant parts of their collaborators (`encoding/base64`,
    `go.opencensus.io/trace/propagation`, `strconv.ParseInt`, `net/http`
    header maps), translated byte-for-byte from their documented behaviour.

Bytes are modelled as `Nat` (with explicit `< 256` bounds where they matter),
Go `int64`/`int` as `Int`, byte slices as `List Nat`, and Go strings as Lean
`String` where the code treats them as text and as `List Nat` where the code
treats them as raw bytes.
-/

/-! ## encoding/base64 (StdEncoding), as used by the propagation codec -/

/-- The standard base64 alphabet, in index order. -/
def b64Table : List Char :=
  ['A', 'B', 'C', 'D', 'E', 'F', 'G', 'H', 'I', 'J', 'K', 'L', 'M',
   'N', 'O', 'P', 'Q', 'R', 'S', 'T', 'U', 'V', 'W', 'X', 'Y', 'Z',
   'a', 'b', 'c', 'd', 'e', 'f', 'g', 'h', 'i', 'j', 'k', 'l', 'm',
   'n', 'o', 'p', 'q', 'r', 's', 't', 'u', 'v', 'w', 'x', 'y', 'z',
   '0', '1', '2', '3', '4', '5', '6', '7', '8', '9', '+', '/']

/-- Encoding table lookup: sextet index to alphabet character. -/
def encChar (i : Nat) : Char := b64Table.getD i 'A'

/-- First index of a character in a list, counting from `i`; `none` if absent. -/
def charIndexFrom (c : Char) : List Char → Nat → Option Nat
  | [], _ => none
  | x :: xs, i => if x = c then some i else charIndexFrom c xs (i + 1)

/-- Decoding table lookup: alphabet character to sextet index, `none` for
any character outside the alphabet (including the padding character). -/
def decChar (c : Char) : Option Nat := charIndexFrom c b64Table 0

/-- Base64 encoding of a byte list, three bytes to four characters, with
trailing groups of one or two bytes padded with one or two `=` characters,
exactly as `base64.StdEncoding.EncodeToString`. -/
def encodeGroups : List Nat → List Char
  | [] => []
  | [b0] => [encChar (b0 / 4), encChar (b0 % 4 * 16), '=', '=']
  | [b0, b1] => [encChar (b0 / 4), encChar (b0 % 4 * 16 + b1 / 16), encChar (b1 % 16 * 4), '=']
  | b0 :: b1 :: b2 :: rest =>
      encChar (b0 / 4) :: encChar (b0 % 4 * 16 + b1 / 16) ::
      encChar (b1 % 16 * 4 + b2 / 64) :: encChar (b2 % 64) :: encodeGroups rest

/-- Base64 decoding, four characters to three bytes, accepting `=` padding
only at the end of the input and failing (`none`) on any input whose length
is not a multiple of four or that contains a character outside the alphabet,
as `base64.StdEncoding.DecodeString` does (newline skipping aside, which no
input in this development contains). -/
def decodeGroups : List Char → Option (List Nat)
  | [] => some []
  | c0 :: c1 :: c2 :: c3 :: rest =>
    match decChar c0, decChar c1 with
    | some i0, some i1 =>
      if c2 = '=' then
        if c3 = '=' ∧ rest = [] then some [i0 * 4 + i1 / 16] else none
      else
        match decChar c2 with
        | some i2 =>
          if c3 = '=' then
            if rest = [] then some [i0 * 4 + i1 / 16, i1 % 16 * 16 + i2 / 4] else none
          else
            match decChar c3 with
            | some i3 =>
              match decodeGroups rest with
              | some bs => some ([i0 * 4 + i1 / 16, i1 % 16 * 16 + i2 / 4, i2 % 4 * 64 + i3] ++ bs)
              | none => none
            | none => none
        | none => none
    | _, _ => none
  | _ => none

/-- Counterpart of `base64.StdEncoding.EncodeToString`. -/
def base64EncodeToString (b : List Nat) : String := String.mk (encodeGroups b)

/-- Counterpart of `base64.StdEncoding.DecodeString`; `none` models a
returned error. -/
def base64DecodeString (s : String) : Option (List Nat) := decodeGroups s.toList

theorem dec_enc_char : ∀ i < 64, decChar (encChar i) = some i := by decide

theorem encChar_ne_pad : ∀ i < 64, encChar i ≠ '=' := by decide

theorem decodeGroups_encodeGroups :
    ∀ (b : List Nat), (∀ x ∈ b, x < 256) → decodeGroups (encodeGroups b) = some b
  | [], _ => rfl
  | [b0], h => by
      have h0 : b0 < 256 := h b0 (by simp)
      have e0 : decChar (encChar (b0 / 4)) = some (b0 / 4) := dec_enc_char _ (by omega)
      have e1 : decChar (encChar (b0 % 4 * 16)) = some (b0 % 4 * 16) := dec_enc_char _ (by omega)
      simp [encodeGroups, decodeGroups, e0, e1]
      omega
  | [b0, b1], h => by
      have h0 : b0 < 256 := h b0 (by simp)
      have h1 : b1 < 256 := h b1 (by simp)
      have e0 : decChar (encChar (b0 / 4)) = some (b0 / 4) := dec_enc_char _ (by omega)
      have e1 : decChar (encChar (b0 % 4 * 16 + b1 / 16)) = some (b0 % 4 * 16 + b1 / 16) :=
        dec_enc_char _ (by omega)
      have e2 : decChar (encChar (b1 % 16 * 4)) = some (b1 % 16 * 4) := dec_enc_char _ (by omega)
      have n2 : encChar (b1 % 16 * 4) ≠ '=' := encChar_ne_pad _ (by omega)
      simp [encodeGroups, decodeGroups, e0, e1, e2, n2]
      omega
  | b0 :: b1 :: b2 :: rest, h => by
      have h0 : b0 < 256 := h b0 (by simp)
      have h1 : b1 < 256 := h b1 (by simp)
      have h2 : b2 < 256 := h b2 (by simp)
      have ih : decodeGroups (encodeGroups rest) = some rest :=
        decodeGroups_encodeGroups rest (fun x hx => h x (by simp [hx]))
      have e0 : decChar (encChar (b0 / 4)) = some (b0 / 4) := dec_enc_char _ (by omega)
      have e1 : decChar (encChar (b0 % 4 * 16 + b1 / 16)) = some (b0 % 4 * 16 + b1 / 16) :=
        dec_enc_char _ (by omega)
      have e2 : decChar (encChar (b1 % 16 * 4 + b2 / 64)) = some (b1 % 16 * 4 + b2 / 64) :=
        dec_enc_char _ (by omega)
      have e3 : decChar (encChar (b2 % 64)) = some (b2 % 64) := dec_enc_char _ (by omega)
      have n2 : encChar (b1 % 16 * 4 + b2 / 64) ≠ '=' := encChar_ne_pad _ (by omega)
      have n3 : encChar (b2 % 64) ≠ '=' := encChar_ne_pad _ (by omega)
      simp [encodeGroups, decodeGroups, e0, e1, e2, e3, n2, n3, ih]
      omega

theorem base64_roundtrip (b : List Nat) (h : ∀ x ∈ b, x < 256) :
    base64DecodeString (base64EncodeToString b) = some b := by
  unfold base64DecodeString base64EncodeToString
  have : (String.mk (encodeGroups b)).toList = encodeGroups b := rfl
  rw [this, decodeGroups_encodeGroups b h]

/-! ## go.opencensus.io/trace/propagation: binary span-context codec -/

/-- Trace context: 16-byte trace id, 8-byte span id, one option byte, as in
`trace.SpanContext` (the `Tracestate` pointer is always nil in this system
and is omitted). Field lengths and byte bounds are carried as hypotheses. -/
structure SpanContext where
  traceID : List Nat
  spanID : List Nat
  traceOptions : Nat
deriving DecidableEq, Repr

/-- The zero `trace.SpanContext{}` value for the fixed field lengths. -/
def zeroSpanContext : SpanContext :=
  { traceID := List.replicate 16 0, spanID := List.replicate 8 0, traceOptions := 0 }

/-- The Go comparison `sc == (trace.SpanContext{})`: both fixed-size arrays
all-zero and a zero options byte. -/
def SpanContext.isZero (sc : SpanContext) : Bool :=
  sc.traceID.all (· = 0) && sc.spanID.all (· = 0) && sc.traceOptions = 0

/-- `propagation.Binary`: nil for the zero context, otherwise the 29-byte
format: version byte 0, field id 0 then the trace id, field id 1 then the
span id, field id 2 then the option byte. -/
def Binary (sc : SpanContext) : List Nat :=
  if sc.isZero then []
  else [0, 0] ++ sc.traceID ++ [1] ++ sc.spanID ++ [2, sc.traceOptions]


/-- Field-0 step of `propagation.FromBinary`: when at least 17 bytes remain
and the next byte is the field id 0, consume it and the 16-byte trace id;
otherwise leave a zero trace id and the input unchanged. -/
def fbTrace : List Nat → List Nat × List Nat
  | 0 :: more =>
      if 16 ≤ more.length then (more.take 16, more.drop 16)
      else (List.replicate 16 0, 0 :: more)
  | b => (List.replicate 16 0, b)

/-- Field-1 step of `propagation.FromBinary`: when at least 9 bytes remain
and the next byte is the field id 1, consume it and the 8-byte span id. -/
def fbSpan : List Nat → List Nat × List Nat
  | 1 :: more =>
      if 8 ≤ more.length then (more.take 8, more.drop 8)
      else (List.replicate 8 0, 1 :: more)
  | b => (List.replicate 8 0, b)

/-- Field-2 step of `propagation.FromBinary`: when at least 2 bytes remain
and the next byte is the field id 2, the following byte is the options. -/
def fbOpts : List Nat → Nat
  | 2 :: x :: _ => x
  | _ => 0

/-- `propagation.FromBinary`: fails on an empty input or a nonzero version
byte; each of the three fields is consumed only when its length and field id
check out, missing fields leaving zero values behind. -/
def FromBinary (b : List Nat) : SpanContext × Bool :=
  match b with
  | 0 :: b1 =>
      let tid := (fbTrace b1).1
      let b2 := (fbTrace b1).2
      let sid := (fbSpan b2).1
      let b3 := (fbSpan b2).2
      ({ traceID := tid, spanID := sid, traceOptions := fbOpts b3 }, true)
  | _ => (zeroSpanContext, false)

theorem fbTrace_append (tid r : List Nat) (h : tid.length = 16) :
    fbTrace (0 :: (tid ++ r)) = (tid, r) := by
  simp only [fbTrace]
  rw [if_pos (by simp [h])]
  rw [List.take_left' h, List.drop_left' h]

theorem fbSpan_append (sid r : List Nat) (h : sid.length = 8) :
    fbSpan (1 :: (sid ++ r)) = (sid, r) := by
  simp only [fbSpan]
  rw [if_pos (by simp [h])]
  rw [List.take_left' h, List.drop_left' h]

theorem FromBinary_Binary (sc : SpanContext)
    (htl : sc.traceID.length = 16) (hsl : sc.spanID.length = 8)
    (hz : sc.isZero = false) :
    FromBinary (Binary sc) = (sc, true) := by
  unfold Binary
  rw [hz]
  simp only [Bool.false_eq_true, if_false]
  have hshape : [0, 0] ++ sc.traceID ++ [1] ++ sc.spanID ++ [2, sc.traceOptions]
      = 0 :: 0 :: (sc.traceID ++ (1 :: (sc.spanID ++ [2, sc.traceOptions]))) := by
    simp
  rw [hshape]
  show (let tid := (fbTrace (0 :: (sc.traceID ++ (1 :: (sc.spanID ++ [2, sc.traceOptions]))))).1
        let b2 := (fbTrace (0 :: (sc.traceID ++ (1 :: (sc.spanID ++ [2, sc.traceOptions]))))).2
        let sid := (fbSpan b2).1
        let b3 := (fbSpan b2).2
        (({ traceID := tid, spanID := sid, traceOptions := fbOpts b3 } : SpanContext), true))
      = (sc, true)
  rw [fbTrace_append sc.traceID _ htl]
  simp only
  rw [fbSpan_append sc.spanID _ hsl]
  simp only [fbOpts]

/-! ## net/http header maps and requests -/

/-- Header map, modelled as an association list; `Set` replaces any previous
value for the key and `Get` returns the empty string for a missing key, as
`http.Header` does (both call sites use the same literal keys, so MIME key
canonicalisation is the identity here). -/
def Header := List (String × String)

/-- `http.Header.Set`. -/
def headerSet (h : Header) (k v : String) : Header :=
  (k, v) :: List.filter (fun kv => !(kv.1 == k)) h

/-- `http.Header.Get`: first value for the key, or the empty string. -/
def headerGet (h : Header) (k : String) : String :=
  match List.find? (fun kv => kv.1 == k) h with
  | some kv => kv.2
  | none => ""

theorem headerGet_set_same (h : Header) (k v : String) :
    headerGet (headerSet h k v) k = v := by
  simp [headerGet, headerSet, List.find?]

theorem find?_filter_ne (l : List (String × String)) (k k' : String) (hne : k' ≠ k) :
    List.find? (fun kv => kv.1 == k') (List.filter (fun kv => !(kv.1 == k)) l)
      = List.find? (fun kv => kv.1 == k') l := by
  induction l with
  | nil => rfl
  | cons kv rest ih =>
      by_cases hk : kv.1 = k
      · have h1 : (kv.1 == k) = true := by simp [hk]
        have h2 : (kv.1 == k') = false := by
          simp only [beq_eq_false_iff_ne, ne_eq]
          rw [hk]
          exact fun hc => hne hc.symm
        simp [List.filter, List.find?, h1, h2, ih]
      · have h1 : (kv.1 == k) = false := by simp [hk]
        by_cases hk' : kv.1 = k'
        · have h2 : (kv.1 == k') = true := by simp [hk']
          simp [List.filter, List.find?, h1, h2]
        · have h2 : (kv.1 == k') = false := by simp [hk']
          simp [List.filter, List.find?, h1, h2, ih]

theorem headerGet_set_ne (h : Header) (k k' v : String) (hne : k' ≠ k) :
    headerGet (headerSet h k v) k' = headerGet h k' := by
  have hb : (k == k') = false := by
    simp only [beq_eq_false_iff_ne, ne_eq]
    exact fun hc => hne hc.symm
  simp only [headerGet, headerSet, List.find?, hb]
  rw [find?_filter_ne h k k' hne]

/-- The inbound `*http.Request`, restricted to the fields this middleware
reads or writes. `bodyBytes` is the content of the body stream;
`bodyReadFails` and `bodyCloseFails` model an erroring `Read`/`Close` on the
original stream. -/
structure Request where
  method : String
  url : String
  header : Header
  contentLength : Int
  bodyBytes : List Nat
  bodyReadFails : Bool
  bodyCloseFails : Bool

/-- Header name constant from `opencensus_tracing.go`. -/
def headerNameOpencensusSpan : String := "X-Opencensus-Span"

/-- Header name constant from `opencensus_tracing.go`. -/
def headerNameOpencensusSpanEventIDKey : String := "X-Opencensus-Event-ID"

/-- `setSpanHeader`: binary-serialise the span context, base64 it and set it
as the `X-Opencensus-Span` header of the request. -/
def setSpanHeader (sc : SpanContext) (r : Request) : Request :=
  { r with header := headerSet r.header headerNameOpencensusSpan
                        (base64EncodeToString (Binary sc)) }

/-- `getSpanContext`: read the `X-Opencensus-Span` header; the empty header,
a base64 decode failure or a `FromBinary` failure all yield `false`. -/
def getSpanContext (r : Request) : SpanContext × Bool :=
  let b64 := headerGet r.header headerNameOpencensusSpan
  if b64 = "" then (zeroSpanContext, false)
  else
    match base64DecodeString b64 with
    | none => (zeroSpanContext, false)
    | some bin => FromBinary bin

theorem encodeGroups_ne_nil (b : List Nat) (hb : b ≠ []) : encodeGroups b ≠ [] := by
  match b, hb with
  | [b0], _ => simp [encodeGroups]
  | [b0, b1], _ => simp [encodeGroups]
  | b0 :: b1 :: b2 :: rest, _ => simp [encodeGroups]

theorem base64EncodeToString_ne_empty (b : List Nat) (hb : b ≠ []) :
    base64EncodeToString b ≠ "" := by
  unfold base64EncodeToString
  intro hc
  have : encodeGroups b = [] := by
    have := congrArg String.toList hc
    simpa using this
  exact encodeGroups_ne_nil b hb this

theorem Binary_ne_nil (sc : SpanContext) (hz : sc.isZero = false) : Binary sc ≠ [] := by
  unfold Binary
  rw [hz]
  simp

theorem Binary_bytes_lt (sc : SpanContext)
    (htb : ∀ x ∈ sc.traceID, x < 256) (hsb : ∀ x ∈ sc.spanID, x < 256)
    (hob : sc.traceOptions < 256) :
    ∀ x ∈ Binary sc, x < 256 := by
  unfold Binary
  intro x hx
  by_cases hz : sc.isZero
  · rw [if_pos hz] at hx
    simp at hx
  · rw [if_neg hz] at hx
    simp only [List.append_assoc, List.mem_append, List.mem_cons, List.mem_singleton] at hx
    rcases hx with (h | h | h) | h | (h | h) | (h | h | h)
    all_goals first
      | (subst h; omega)
      | (exact htb x h)
      | (exact hsb x h)
      | simp_all

/-- C1: for every valid trace context (correct field lengths, byte-bounded
fields, not the zero context), decoding the header value produced by
encoding the context recovers it with `found = true`: `getSpanContext` of a
request whose `X-Opencensus-Span` header was set by `setSpanHeader` returns
the original context and `true`. -/
theorem C1_span_header_roundtrip (sc : SpanContext) (r : Request)
    (htl : sc.traceID.length = 16) (hsl : sc.spanID.length = 8)
    (htb : ∀ x ∈ sc.traceID, x < 256) (hsb : ∀ x ∈ sc.spanID, x < 256)
    (hob : sc.traceOptions < 256) (hz : sc.isZero = false) :
    getSpanContext (setSpanHeader sc r) = (sc, true) := by
  unfold getSpanContext setSpanHeader
  simp only [headerGet_set_same]
  rw [if_neg (base64EncodeToString_ne_empty _ (Binary_ne_nil sc hz))]
  rw [base64_roundtrip _ (Binary_bytes_lt sc htb hsb hob)]
  exact FromBinary_Binary sc htl hsl hz

theorem C1_span_header_roundtrip_witness :
    getSpanContext (setSpanHeader
      { traceID := List.replicate 16 1, spanID := List.replicate 8 2, traceOptions := 1 }
      { method := "GET", url := "/test", header := [], contentLength := 0,
        bodyBytes := [], bodyReadFails := false, bodyCloseFails := false })
      = ({ traceID := List.replicate 16 1, spanID := List.replicate 8 2, traceOptions := 1 }, true) :=
  C1_span_header_roundtrip _ _ (by decide) (by decide) (by decide) (by decide)
    (by decide) (by decide)

/-! ## Response-writer decorator (final decorator revision) -/

/-- `responseWriterDecorator`: the capture buffer, the recorded status code
(Go zero value 0 until `WriteHeader` is called) and the underlying
`http.ResponseWriter`, modelled as the list of bytes forwarded to it. -/
structure responseWriterDecorator where
  buff : List Nat
  statusCode : Int
  forwarded : List Nat
deriving DecidableEq, Repr

/-- `decorateResponseWriter`: fresh buffer, zero-valued status code, over an
underlying writer that has already forwarded `w`. -/
def decorateResponseWriter (w : List Nat) : responseWriterDecorator :=
  { buff := [], statusCode := 0, forwarded := w }

/-- `responseWriterDecorator.Write`: append a copy of the bytes to the
buffer, then forward exactly the same bytes to the underlying writer. -/
def rwdWrite (d : responseWriterDecorator) (bs : List Nat) : responseWriterDecorator :=
  { d with buff := d.buff ++ bs, forwarded := d.forwarded ++ bs }

/-- `responseWriterDecorator.WriteHeader`: record the code (last call wins)
and forward the call. -/
def rwdWriteHeader (d : responseWriterDecorator) (code : Int) : responseWriterDecorator :=
  { d with statusCode := code }

/-- `responseWriterDecorator.Payload`. -/
def rwdPayload (d : responseWriterDecorator) : List Nat := d.buff

/-- `responseWriterDecorator.StatusCode`. -/
def rwdStatusCode (d : responseWriterDecorator) : Int := d.statusCode

/-- A sequence of `Write` calls, in call order. -/
def writeSeq (d : responseWriterDecorator) (ws : List (List Nat)) : responseWriterDecorator :=
  ws.foldl rwdWrite d

theorem writeSeq_buff (d : responseWriterDecorator) (ws : List (List Nat)) :
    (writeSeq d ws).buff = d.buff ++ ws.flatten := by
  induction ws generalizing d with
  | nil => simp [writeSeq]
  | cons w rest ih =>
      simp only [writeSeq, List.foldl_cons, List.flatten]
      rw [show List.foldl rwdWrite (rwdWrite d w) rest = writeSeq (rwdWrite d w) rest from rfl]
      rw [ih]
      simp [rwdWrite]

theorem writeSeq_forwarded (d : responseWriterDecorator) (ws : List (List Nat)) :
    (writeSeq d ws).forwarded = d.forwarded ++ ws.flatten := by
  induction ws generalizing d with
  | nil => simp [writeSeq]
  | cons w rest ih =>
      simp only [writeSeq, List.foldl_cons, List.flatten]
      rw [show List.foldl rwdWrite (rwdWrite d w) rest = writeSeq (rwdWrite d w) rest from rfl]
      rw [ih]
      simp [rwdWrite]

theorem writeSeq_statusCode (d : responseWriterDecorator) (ws : List (List Nat)) :
    (writeSeq d ws).statusCode = d.statusCode := by
  induction ws generalizing d with
  | nil => rfl
  | cons w rest ih =>
      simp only [writeSeq, List.foldl_cons]
      rw [show List.foldl rwdWrite (rwdWrite d w) rest = writeSeq (rwdWrite d w) rest from rfl]
      rw [ih]
      rfl

/-- C3: for every sequence of `Write` calls on a fresh response decorator,
`Payload()` is the exact concatenation, in call order, of the written byte
slices; each single `Write` forwards exactly its bytes, unmodified and in
order, to the underlying writer, so over the whole sequence the underlying
writer receives exactly the same concatenation. -/
theorem C3_response_capture_mirror (w : List Nat) (ws : List (List Nat)) :
    rwdPayload (writeSeq (decorateResponseWriter w) ws) = ws.flatten
    ∧ (writeSeq (decorateResponseWriter w) ws).forwarded = w ++ ws.flatten
    ∧ ∀ (d : responseWriterDecorator) (bs : List Nat),
        (rwdWrite d bs).forwarded = d.forwarded ++ bs
        ∧ (rwdWrite d bs).buff = d.buff ++ bs := by
  refine ⟨?_, ?_, ?_⟩
  · rw [rwdPayload, writeSeq_buff]
    rfl
  · rw [writeSeq_forwarded]
    rfl
  · intro d bs
    exact ⟨rfl, rfl⟩

/-! ## Request-body decorator (final decorator revision: eager capture) -/

/-- `requestBodyDecorator`: the captured bytes and the fresh independent
cursor (`bytes.Reader`) over them, with its read position. -/
structure requestBodyDecorator where
  bodyBytes : List Nat
  cursor : List Nat
  pos : Nat
deriving DecidableEq, Repr

/-- `decorateRequestBody`: for zero declared content length, an empty
decorator over an empty buffer; otherwise eagerly read the whole original
body and close it, degrading to the empty decorator if either fails, and on
success own the bytes and a fresh reader over them. -/
def decorateRequestBody (r : Request) : requestBodyDecorator :=
  if r.contentLength = 0 then { bodyBytes := [], cursor := [], pos := 0 }
  else if r.bodyReadFails then { bodyBytes := [], cursor := [], pos := 0 }
  else if r.bodyCloseFails then { bodyBytes := [], cursor := [], pos := 0 }
  else { bodyBytes := r.bodyBytes, cursor := r.bodyBytes, pos := 0 }

/-- `requestBodyDecorator.Read` into a buffer of size `k`: returns the bytes
read from the independent cursor (never the original stream) and the
decorator after the cursor advanced. -/
def rbdRead (d : requestBodyDecorator) (k : Nat) : List Nat × requestBodyDecorator :=
  let out := (d.cursor.drop d.pos).take k
  (out, { d with pos := d.pos + out.length })

/-- `requestBodyDecorator.Close`: always succeeds (`none` = nil error); the
original stream was already closed at construction. -/
def rbdClose (_ : requestBodyDecorator) : Option String := none

/-- `requestBodyDecorator.Payload`. -/
def rbdPayload (d : requestBodyDecorator) : List Nat := d.bodyBytes

/-- A sequence of `Read` calls with the given buffer sizes; returns the
concatenation of everything read, and the final decorator. -/
def readChunks (d : requestBodyDecorator) : List Nat → List Nat × requestBodyDecorator
  | [] => ([], d)
  | k :: ks =>
      let step := rbdRead d k
      let restOut := readChunks step.2 ks
      (step.1 ++ restOut.1, restOut.2)

theorem readChunks_bodyBytes (d : requestBodyDecorator) (ks : List Nat) :
    (readChunks d ks).2.bodyBytes = d.bodyBytes := by
  induction ks generalizing d with
  | nil => rfl
  | cons k rest ih => simp [readChunks, rbdRead, ih]

theorem readChunks_cursor (d : requestBodyDecorator) (ks : List Nat) :
    (readChunks d ks).2.cursor = d.cursor := by
  induction ks generalizing d with
  | nil => rfl
  | cons k rest ih => simp [readChunks, rbdRead, ih]

theorem readChunks_out (d : requestBodyDecorator) (ks : List Nat) :
    (readChunks d ks).1 = (d.cursor.drop d.pos).take ks.sum := by
  induction ks generalizing d with
  | nil =>
      simp [readChunks]
  | cons k rest ih =>
      simp only [readChunks, rbdRead, List.sum_cons]
      rw [ih]
      simp only
      rw [List.take_add]
      have hdl : (d.cursor.drop d.pos).length = d.cursor.length - d.pos := by
        rw [List.length_drop]
      have htl : ((d.cursor.drop d.pos).take k).length = min k (d.cursor.drop d.pos).length :=
        List.length_take _ _
      congr 1
      by_cases hk : k ≤ d.cursor.length - d.pos
      · have hlen : ((d.cursor.drop d.pos).take k).length = k := by omega
        rw [hlen, List.drop_drop]
      · have h1 : d.cursor.drop (d.pos + ((d.cursor.drop d.pos).take k).length) = [] :=
          List.drop_eq_nil_of_le (by omega)
        have h2 : (d.cursor.drop d.pos).drop k = [] :=
          List.drop_eq_nil_of_le (by omega)
        rw [h1, h2]

/-- C2: for a request with non-zero declared content length whose body read
and close succeed, the decorator eagerly owns the whole original body at
construction; `Payload()` equals the original bytes after any sequence of
downstream reads (none, a strict prefix, or all); and reading the fresh
decorator to exhaustion (total requested at least the body length) yields
exactly the original bytes. -/
theorem C2_request_capture_eager (r : Request) (ks : List Nat)
    (hcl : r.contentLength ≠ 0) (hrf : r.bodyReadFails = false)
    (hcf : r.bodyCloseFails = false) :
    (decorateRequestBody r).bodyBytes = r.bodyBytes
    ∧ rbdPayload (readChunks (decorateRequestBody r) ks).2 = r.bodyBytes
    ∧ (r.bodyBytes.length ≤ ks.sum → (readChunks (decorateRequestBody r) ks).1 = r.bodyBytes) := by
  have hd : decorateRequestBody r
      = { bodyBytes := r.bodyBytes, cursor := r.bodyBytes, pos := 0 } := by
    unfold decorateRequestBody
    rw [if_neg hcl, hrf, hcf]
    simp
  refine ⟨by rw [hd], ?_, ?_⟩
  · rw [rbdPayload, readChunks_bodyBytes, hd]
  · intro hlen
    rw [readChunks_out, hd]
    simp only [List.drop_zero]
    exact List.take_of_length_le hlen

theorem C2_request_capture_eager_witness :
    (decorateRequestBody
      { method := "POST", url := "/test", header := [], contentLength := 3,
        bodyBytes := [10, 20, 30], bodyReadFails := false, bodyCloseFails := false }).bodyBytes
      = [10, 20, 30]
    ∧ rbdPayload (readChunks (decorateRequestBody
      { method := "POST", url := "/test", header := [], contentLength := 3,
        bodyBytes := [10, 20, 30], bodyReadFails := false, bodyCloseFails := false }) [2]).2
      = [10, 20, 30]
    ∧ (readChunks (decorateRequestBody
        { method := "POST", url := "/test", header := [], contentLength := 3,
          bodyBytes := [10, 20, 30], bodyReadFails := false, bodyCloseFails := false }) [2, 5]).1
        = [10, 20, 30] :=
  ⟨(C2_request_capture_eager _ [2] (by decide) (by decide) (by decide)).1,
   (C2_request_capture_eager _ [2] (by decide) (by decide) (by decide)).2.1,
   (C2_request_capture_eager _ [2, 5] (by decide) (by decide) (by decide)).2.2 (by decide)⟩

/-- C9: `Close()` on the request-capture decorator returns no error in every
decorator state, in particular after construction from any request and any
sequence of reads. -/
theorem C9_close_always_succeeds :
    (∀ d : requestBodyDecorator, rbdClose d = none)
    ∧ ∀ (r : Request) (ks : List Nat),
        rbdClose (readChunks (decorateRequestBody r) ks).2 = none :=
  ⟨fun _ => rfl, fun _ _ => rfl⟩

/-! ## strconv.ParseInt(s, 10, 64), as used for the event-id header -/

/-- The two error kinds of `strconv`: `ErrSyntax` and `ErrRange`. -/
inductive ParseErr where
  | syntaxErr
  | rangeErr
deriving DecidableEq, Repr

/-- Largest `uint64` value. -/
def maxUint64 : Nat := 18446744073709551615

/-- `strconv.ParseUint` overflow cutoff for base 10, bit size 64. -/
def uintCutoff : Nat := maxUint64 / 10 + 1

/-- Digit-accumulation loop of `strconv.ParseUint` (base 10, 64 bits): a
non-digit is a syntax error with value 0, overflow is a range error with
value `maxUint64`, scanning left to right and stopping at the first fault. -/
def parseUintLoop : Nat → List Char → Nat × Option ParseErr
  | n, [] => (n, none)
  | n, c :: cs =>
      if c.toNat < 48 ∨ 57 < c.toNat then (0, some ParseErr.syntaxErr)
      else if uintCutoff ≤ n then (maxUint64, some ParseErr.rangeErr)
      else if maxUint64 < n * 10 + (c.toNat - 48) then (maxUint64, some ParseErr.rangeErr)
      else parseUintLoop (n * 10 + (c.toNat - 48)) cs

/-- Sign application and `int64` range clamping at the end of
`strconv.ParseInt`: syntax errors from the digit loop give value 0; values
outside the `int64` range give a range error with the nearest bound, as the
Go implementation returns the clamped value alongside `ErrRange`. -/
def parseIntFinish (neg : Bool) (scanned : Nat × Option ParseErr) : Int × Option ParseErr :=
  match scanned.2 with
  | some ParseErr.syntaxErr => (0, some ParseErr.syntaxErr)
  | some ParseErr.rangeErr =>
      if neg then (-(2 ^ 63 : Int), some ParseErr.rangeErr)
      else ((2 ^ 63 - 1 : Int), some ParseErr.rangeErr)
  | none =>
      if neg = false ∧ 2 ^ 63 ≤ scanned.1 then ((2 ^ 63 - 1 : Int), some ParseErr.rangeErr)
      else if neg = true ∧ 2 ^ 63 < scanned.1 then (-(2 ^ 63 : Int), some ParseErr.rangeErr)
      else if neg = true then (-(scanned.1 : Int), none)
      else ((scanned.1 : Int), none)

/-- `strconv.ParseInt(s, 10, 64)`: empty input and a bare sign are syntax
errors with value 0; otherwise scan the digits after the optional sign and
finish with sign and range handling. -/
def parseIntGo (s : String) : Int × Option ParseErr :=
  match s.toList with
  | [] => (0, some ParseErr.syntaxErr)
  | c :: cs =>
      let digits := if c = '+' ∨ c = '-' then cs else c :: cs
      match digits with
      | [] => (0, some ParseErr.syntaxErr)
      | _ => parseIntFinish (c == '-') (parseUintLoop 0 digits)

/-! ## Span operations: the calls this middleware makes on a `trace.Span` -/

/-- One call on the span, as seen by the tracing provider. Attribute values
that originate from captured payload bytes are carried as byte lists. -/
inductive SpanOp where
  | startSpanRoot
  | startSpanRemote (parent : SpanContext)
  | addLink (traceID spanID : List Nat)
  | setName (n : String)
  | addStrAttr (key value : String)
  | addBytesAttr (key : String) (value : List Nat)
  | addMessageReceive (eventID size compressedSize : Int)
  | addMessageSend (eventID size compressedSize : Int)
  | setStatus (code : Int) (message : String)
  | endSpan
deriving DecidableEq, Repr

/-- Attribute key constant from `opencensus_tracing.go`. -/
def spanRequestPayloadAttributeKey : String := "request_payload"

/-- Attribute key constant from `opencensus_tracing.go`. -/
def spanResponsePayloadAttributeKey : String := "response_payload"

/-- Payload limit constant from `opencensus_tracing.go`. -/
def payloadSizeLimit : Nat := 256

/-- Truncation marker constant from `opencensus_tracing.go`, as its byte
(ASCII) sequence. -/
def payloadTruncatedMessage : List Nat :=
  (String.toList "...[payload has been truncated]").map Char.toNat

/-- The truncation both payload-attribute setters apply inline: payloads
longer than the limit keep the prefix of length limit minus marker length
and get the marker appended. -/
def truncatePayload (p : List Nat) : List Nat :=
  if payloadSizeLimit < p.length then
    p.take (payloadSizeLimit - payloadTruncatedMessage.length) ++ payloadTruncatedMessage
  else p

/-- `setSpanRequestPayloadAttribute`: empty payload for a nil decorator,
otherwise its captured bytes; truncate; always set the attribute. -/
def setSpanRequestPayloadAttribute (body : Option requestBodyDecorator) : List SpanOp :=
  let payload := match body with
    | some b => rbdPayload b
    | none => []
  [SpanOp.addBytesAttr spanRequestPayloadAttributeKey (truncatePayload payload)]

/-- `setSpanResponsePayloadAttribute`: the response capture buffer,
truncated; always set. -/
def setSpanResponsePayloadAttribute (w : responseWriterDecorator) : List SpanOp :=
  [SpanOp.addBytesAttr spanResponsePayloadAttributeKey (truncatePayload (rwdPayload w))]

/-- `addSpanMessageReceiveEvent`: event id parsed from the
`X-Opencensus-Event-ID` header with the error discarded, byte size from the
request's declared content length, compressed size 0. -/
def addSpanMessageReceiveEvent (r : Request) : List SpanOp :=
  [SpanOp.addMessageReceive
    (parseIntGo (headerGet r.header headerNameOpencensusSpanEventIDKey)).1 r.contentLength 0]

/-- `closeSpan`: status OK with message "OK" below 400, otherwise Unknown
(code 2) with the status code embedded in the message; then end the span. -/
def closeSpan (w : responseWriterDecorator) : List SpanOp :=
  (if rwdStatusCode w < 400 then SpanOp.setStatus 0 "OK"
   else SpanOp.setStatus 2 ("Response status code: " ++ toString (rwdStatusCode w)))
  :: [SpanOp.endSpan]

/-! ## Route context and the remaining span-lifecycle functions -/

/-- The chi route context: matched route pattern and the URL parameters, as
ordered key/value pairs. -/
structure RouteContext where
  routePattern : String
  urlParams : List (String × String)

/-- `chi.RouteContext(...).URLParam(key)`: the value for the key, searching
the parameter list from the end, or the empty string. -/
def urlParam (rctx : RouteContext) (k : String) : String :=
  match List.find? (fun kv => kv.1 == k) rctx.urlParams.reverse with
  | some kv => kv.2
  | none => ""

/-- `setSpanNameAndURLAttributes`: span name `[METHOD] pattern` from the
matched route pattern, then one string attribute per URL parameter key. -/
def setSpanNameAndURLAttributes (r : Request) (rctx : RouteContext) : List SpanOp :=
  SpanOp.setName ("[" ++ r.method ++ "] " ++ rctx.routePattern)
  :: rctx.urlParams.map (fun kv => SpanOp.addStrAttr kv.1 (urlParam rctx kv.1))

/-- Span opening in `OpencensusTracing`: a remote-parented span plus an
explicit parent link when the propagation header decodes, a root span
otherwise. -/
def spanOpenOps (r : Request) : List SpanOp :=
  let found := getSpanContext r
  if found.2 then
    [SpanOp.startSpanRemote found.1, SpanOp.addLink found.1.traceID found.1.spanID]
  else
    [SpanOp.startSpanRoot]

/-- One step the downstream handler can take on the decorated writer and
body. -/
inductive HandlerAction where
  | write (bs : List Nat)
  | writeHeader (code : Int)
  | readBody (k : Nat)

/-- Apply one handler action to the decorated response writer and body. -/
def applyAction (st : responseWriterDecorator × requestBodyDecorator) (a : HandlerAction) :
    responseWriterDecorator × requestBodyDecorator :=
  match a with
  | HandlerAction.write bs => (rwdWrite st.1 bs, st.2)
  | HandlerAction.writeHeader c => (rwdWriteHeader st.1 c, st.2)
  | HandlerAction.readBody k => (st.1, (rbdRead st.2 k).2)

/-- One request through the `OpencensusTracing` middleware: decorate the
writer and the body, open the span, run the downstream handler (all of its
actions, or only the first `n` when it panics after `n` steps), then run the
five deferred finalisation calls in last-deferred-first order — Go runs
deferred calls on normal return and on panic alike. Returns the span-call
log and the final decorator states. -/
def runMiddleware (r : Request) (rctx : RouteContext) (actions : List HandlerAction)
    (panicAfter : Option Nat) :
    List SpanOp × responseWriterDecorator × requestBodyDecorator :=
  let ww0 := decorateResponseWriter []
  let body0 := decorateRequestBody r
  let executed := match panicAfter with
    | none => actions
    | some n => actions.take n
  let final := executed.foldl applyAction (ww0, body0)
  let deferredLifo : List (List SpanOp) :=
    [closeSpan final.1,
     setSpanResponsePayloadAttribute final.1,
     setSpanRequestPayloadAttribute (some final.2),
     addSpanMessageReceiveEvent r,
     setSpanNameAndURLAttributes r rctx]
  (spanOpenOps r ++ deferredLifo.reverse.flatten, final)

/-- The span-call log of one request through the middleware. -/
def runMiddlewareLog (r : Request) (rctx : RouteContext) (actions : List HandlerAction)
    (panicAfter : Option Nat) : List SpanOp :=
  (runMiddleware r rctx actions panicAfter).1

/-- `AddTracingSpanToRequest` (outbound leg): a no-op without a span in the
context; otherwise set the freshly generated event id as a decimal header,
record a message-sent event with the outgoing content length, and write the
encoded span context header. The random event id is an explicit argument.
Returns the modified request and the span-call log. -/
def AddTracingSpanToRequest (ctx : Option SpanContext) (eID : Int) (r : Request) :
    Request × List SpanOp :=
  match ctx with
  | none => (r, [])
  | some sc =>
      let r1 := { r with header := headerSet r.header headerNameOpencensusSpanEventIDKey
                            (toString eID) }
      let r2 := setSpanHeader sc r1
      (r2, [SpanOp.addMessageSend eID r.contentLength 0])

/-! ## Helper lemmas about the span-call log -/

/-- Receive events among a list of span calls. -/
def receiveEvents (ops : List SpanOp) : List SpanOp :=
  ops.filter (fun op => match op with
    | SpanOp.addMessageReceive _ _ _ => true
    | _ => false)

theorem receiveEvents_append (a b : List SpanOp) :
    receiveEvents (a ++ b) = receiveEvents a ++ receiveEvents b :=
  List.filter_append a b

theorem receiveEvents_spanOpenOps (r : Request) : receiveEvents (spanOpenOps r) = [] := by
  unfold spanOpenOps
  by_cases h : (getSpanContext r).2
  · rw [if_pos h]
    rfl
  · rw [if_neg h]
    rfl

theorem receiveEvents_nil : receiveEvents [] = [] := rfl

theorem receiveEvents_attrs_map (rctx : RouteContext) (l : List (String × String)) :
    receiveEvents (l.map (fun kv => SpanOp.addStrAttr kv.1 (urlParam rctx kv.1))) = [] := by
  induction l with
  | nil => rfl
  | cons kv rest ih =>
      simp only [List.map_cons]
      rw [show receiveEvents (SpanOp.addStrAttr kv.1 (urlParam rctx kv.1)
            :: rest.map (fun kv => SpanOp.addStrAttr kv.1 (urlParam rctx kv.1)))
          = receiveEvents (rest.map (fun kv => SpanOp.addStrAttr kv.1 (urlParam rctx kv.1)))
        from rfl]
      exact ih

theorem receiveEvents_name (r : Request) (rctx : RouteContext) :
    receiveEvents (setSpanNameAndURLAttributes r rctx) = [] := by
  unfold setSpanNameAndURLAttributes
  rw [show receiveEvents (SpanOp.setName ("[" ++ r.method ++ "] " ++ rctx.routePattern)
        :: rctx.urlParams.map (fun kv => SpanOp.addStrAttr kv.1 (urlParam rctx kv.1)))
      = receiveEvents (rctx.urlParams.map (fun kv => SpanOp.addStrAttr kv.1 (urlParam rctx kv.1)))
    from rfl]
  exact receiveEvents_attrs_map rctx rctx.urlParams

theorem receiveEvents_closeSpan (w : responseWriterDecorator) :
    receiveEvents (closeSpan w) = [] := by
  unfold closeSpan
  split
  · rfl
  · rfl

/-- C4 as stated is false on the code: the message-received event carries
the request's declared content length, not the final count of response
bytes written. Here the request declares 7 bytes while the handler writes 8
response bytes, and the single receive event carries size 7, not 8. -/
theorem C4_counterexample :
    receiveEvents (runMiddlewareLog
      { method := "POST", url := "/test", header := [], contentLength := 7,
        bodyBytes := [82, 69, 81, 85, 69, 83, 84], bodyReadFails := false,
        bodyCloseFails := false }
      { routePattern := "/test", urlParams := [] }
      [HandlerAction.write [82, 69, 83, 80, 79, 78, 83, 69]] none)
      = [SpanOp.addMessageReceive 0 7 0]
    ∧ (runMiddleware
      { method := "POST", url := "/test", header := [], contentLength := 7,
        bodyBytes := [82, 69, 81, 85, 69, 83, 84], bodyReadFails := false,
        bodyCloseFails := false }
      { routePattern := "/test", urlParams := [] }
      [HandlerAction.write [82, 69, 83, 80, 79, 78, 83, 69]] none).2.1.buff.length = 8
    ∧ (7 : Int) ≠ 8 := by decide

/-- C4 amended: at inbound finalization the span receives exactly one
message-received event, whose byte size is the request's declared content
length (with the event id parsed from the correlation header) and whose
compressed size is 0, for every request, route, handler behaviour and panic
point. -/
theorem C4_receive_event_sizes (r : Request) (rctx : RouteContext)
    (acts : List HandlerAction) (panicAfter : Option Nat) :
    receiveEvents (runMiddlewareLog r rctx acts panicAfter)
      = [SpanOp.addMessageReceive
          (parseIntGo (headerGet r.header headerNameOpencensusSpanEventIDKey)).1
          r.contentLength 0] := by
  unfold runMiddlewareLog runMiddleware
  simp only [List.reverse_cons, List.reverse_nil, List.nil_append, List.flatten]
  rw [receiveEvents_append]
  rw [receiveEvents_spanOpenOps]
  simp only [List.nil_append, List.append_assoc]
  rw [receiveEvents_append, receiveEvents_name]
  rw [receiveEvents_append]
  rw [show receiveEvents (addSpanMessageReceiveEvent r)
      = [SpanOp.addMessageReceive
          (parseIntGo (headerGet r.header headerNameOpencensusSpanEventIDKey)).1
          r.contentLength 0] from rfl]
  rw [receiveEvents_append]
  rw [show ∀ b, receiveEvents (setSpanRequestPayloadAttribute b) = [] from fun b => rfl]
  rw [receiveEvents_append]
  rw [show ∀ w, receiveEvents (setSpanResponsePayloadAttribute w) = [] from fun w => rfl]
  rw [receiveEvents_append, receiveEvents_closeSpan]
  simp [receiveEvents]

/-- C5 as stated is false on the code: with no `WriteHeader` call the
decorator's status field keeps its zero value, so after a successful write
`StatusCode()` reports 0, not 200. -/
theorem C5_counterexample :
    rwdStatusCode (writeSeq (decorateResponseWriter []) [[72, 105]]) = 0
    ∧ rwdStatusCode (writeSeq (decorateResponseWriter []) [[72, 105]]) ≠ 200 := by
  decide

/-- C5 amended: if the downstream handler never calls `WriteHeader`,
`StatusCode()` reports 0 (the zero value), and since 0 < 400 span
finalization still treats the response as successful, closing the span with
status OK. -/
theorem C5_statusCode_default (ws : List (List Nat)) :
    rwdStatusCode (writeSeq (decorateResponseWriter []) ws) = 0
    ∧ closeSpan (writeSeq (decorateResponseWriter []) ws)
        = [SpanOp.setStatus 0 "OK", SpanOp.endSpan] := by
  have h : (writeSeq (decorateResponseWriter []) ws).statusCode = 0 := by
    rw [writeSeq_statusCode]
    rfl
  constructor
  · exact h
  · unfold closeSpan rwdStatusCode
    rw [h]
    rfl

/-- C6: for every payload byte string and the fixed limit 256 with the fixed
31-byte marker: at or below the limit the stored attribute value is the
payload itself (the empty payload included, and the attribute is still set);
above the limit it is the 225-byte prefix followed by the marker, has total
length exactly 256, and ends in the marker. -/
theorem C6_truncation (p : List Nat) :
    payloadTruncatedMessage.length = 31
    ∧ (p.length ≤ 256 → truncatePayload p = p)
    ∧ (256 < p.length →
        truncatePayload p = p.take 225 ++ payloadTruncatedMessage
        ∧ (truncatePayload p).length = 256
        ∧ List.IsSuffix payloadTruncatedMessage (truncatePayload p))
    ∧ (∀ b : requestBodyDecorator, setSpanRequestPayloadAttribute (some b)
        = [SpanOp.addBytesAttr spanRequestPayloadAttributeKey (truncatePayload (rbdPayload b))])
    ∧ setSpanRequestPayloadAttribute none
        = [SpanOp.addBytesAttr spanRequestPayloadAttributeKey []] := by
  have hm : payloadTruncatedMessage.length = 31 := by rfl
  refine ⟨hm, ?_, ?_, fun b => rfl, rfl⟩
  · intro hle
    unfold truncatePayload
    rw [if_neg (by unfold payloadSizeLimit; omega)]
  · intro hgt
    have he : truncatePayload p = p.take 225 ++ payloadTruncatedMessage := by
      unfold truncatePayload
      rw [if_pos (by unfold payloadSizeLimit; omega), hm]
      rfl
    refine ⟨he, ?_, ?_⟩
    · rw [he, List.length_append, List.length_take, hm]
      omega
    · rw [he]
      exact ⟨p.take 225, rfl⟩

theorem C6_truncation_witness :
    (truncatePayload (List.replicate 100 65) = List.replicate 100 65)
    ∧ truncatePayload [] = []
    ∧ (truncatePayload (List.replicate 300 65)).length = 256
    ∧ List.IsSuffix payloadTruncatedMessage (truncatePayload (List.replicate 300 65)) :=
  ⟨(C6_truncation (List.replicate 100 65)).2.1 (by simp),
   (C6_truncation []).2.1 (by simp),
   ((C6_truncation (List.replicate 300 65)).2.2.1 (by simp)).2.1,
   ((C6_truncation (List.replicate 300 65)).2.2.1 (by simp)).2.2⟩

theorem count_endSpan_spanOpenOps (r : Request) :
    (spanOpenOps r).count SpanOp.endSpan = 0 := by
  unfold spanOpenOps
  by_cases h : (getSpanContext r).2
  · rw [if_pos h]
    rfl
  · rw [if_neg h]
    rfl

theorem count_endSpan_attrs_map (rctx : RouteContext) (l : List (String × String)) :
    (l.map (fun kv => SpanOp.addStrAttr kv.1 (urlParam rctx kv.1))).count SpanOp.endSpan = 0 := by
  induction l with
  | nil => rfl
  | cons kv rest ih =>
      simp only [List.map_cons, List.count_cons, ih]
      rfl

theorem count_endSpan_name (r : Request) (rctx : RouteContext) :
    (setSpanNameAndURLAttributes r rctx).count SpanOp.endSpan = 0 := by
  unfold setSpanNameAndURLAttributes
  rw [List.count_cons]
  rw [count_endSpan_attrs_map]
  rfl

theorem count_endSpan_closeSpan (w : responseWriterDecorator) :
    (closeSpan w).count SpanOp.endSpan = 1 := by
  unfold closeSpan
  split
  · rfl
  · rfl

theorem getLast?_closeSpan (w : responseWriterDecorator) :
    (closeSpan w).getLast? = some SpanOp.endSpan := by
  unfold closeSpan
  split
  · rfl
  · rfl

/-- C7: for every request, route context, handler behaviour and panic point
(the handler completing all of its actions or failing abnormally after any
number of them), the middleware's span-call log is exactly the open calls
followed by (a) name and URL-parameter attributes, (b) the message-received
event, (c) the request-payload attribute, (d) the response-payload
attribute, (e) status and span close, in this order; the span-end call
occurs exactly once in the whole log, and it is the last call. -/
theorem C7_finalization_order (r : Request) (rctx : RouteContext)
    (acts : List HandlerAction) (panicAfter : Option Nat) :
    runMiddlewareLog r rctx acts panicAfter
      = spanOpenOps r
        ++ (setSpanNameAndURLAttributes r rctx
        ++ (addSpanMessageReceiveEvent r
        ++ (setSpanRequestPayloadAttribute (some (runMiddleware r rctx acts panicAfter).2.2)
        ++ (setSpanResponsePayloadAttribute (runMiddleware r rctx acts panicAfter).2.1
        ++ closeSpan (runMiddleware r rctx acts panicAfter).2.1))))
    ∧ (runMiddlewareLog r rctx acts panicAfter).count SpanOp.endSpan = 1
    ∧ (runMiddlewareLog r rctx acts panicAfter).getLast? = some SpanOp.endSpan := by
  have hlog : runMiddlewareLog r rctx acts panicAfter
      = spanOpenOps r
        ++ (setSpanNameAndURLAttributes r rctx
        ++ (addSpanMessageReceiveEvent r
        ++ (setSpanRequestPayloadAttribute (some (runMiddleware r rctx acts panicAfter).2.2)
        ++ (setSpanResponsePayloadAttribute (runMiddleware r rctx acts panicAfter).2.1
        ++ closeSpan (runMiddleware r rctx acts panicAfter).2.1)))) := by
    unfold runMiddlewareLog runMiddleware
    simp [List.flatten]
  refine ⟨hlog, ?_, ?_⟩
  · rw [hlog]
    simp only [List.count_append]
    rw [count_endSpan_spanOpenOps, count_endSpan_name, count_endSpan_closeSpan]
    rfl
  · rw [hlog]
    simp only [List.getLast?_append]
    rw [getLast?_closeSpan]
    rfl

theorem parseIntFinish_syntax_zero (neg : Bool) (scanned : Nat × Option ParseErr) :
    (parseIntFinish neg scanned).2 = some ParseErr.syntaxErr →
    (parseIntFinish neg scanned).1 = 0 := by
  unfold parseIntFinish
  split
  · intro _
    rfl
  · split <;> (intro h; simp at h)
  · split
    · intro h
      simp at h
    · split
      · intro h
        simp at h
      · split <;> (intro h; simp at h)

theorem parseIntGo_syntax_zero (s : String) :
    (parseIntGo s).2 = some ParseErr.syntaxErr → (parseIntGo s).1 = 0 := by
  unfold parseIntGo
  split
  · intro _
    rfl
  · dsimp only
    split
    · intro _
      rfl
    · exact parseIntFinish_syntax_zero _ _

theorem FromBinary_false : ∀ (b : List Nat), (FromBinary b).2 = false →
    FromBinary b = (zeroSpanContext, false)
  | [], _ => rfl
  | 0 :: b1, h => absurd h (by simp [FromBinary])
  | (n + 1) :: b1, _ => rfl

/-- C8 as stated is false on the code at an out-of-range correlation
header: `strconv.ParseInt` cannot parse `9223372036854775808` (it reports
an error), yet because the error is discarded the recorded event id is the
clamped value 9223372036854775807, not 0. -/
theorem C8_counterexample :
    (parseIntGo "9223372036854775808").2 = some ParseErr.rangeErr
    ∧ (parseIntGo "9223372036854775808").1 = 9223372036854775807
    ∧ addSpanMessageReceiveEvent
        { method := "GET", url := "/test",
          header := [(headerNameOpencensusSpanEventIDKey, "9223372036854775808")],
          contentLength := 0, bodyBytes := [], bodyReadFails := false,
          bodyCloseFails := false }
        = [SpanOp.addMessageReceive 9223372036854775807 0 0]
    ∧ (9223372036854775807 : Int) ≠ 0 := by
  decide

/-- C8 amended: an absent span header, one that fails base64 decoding, and
one whose bytes fail `FromBinary` all yield `found = false` without error,
and the span is then opened as a standalone root; an absent or
syntactically unparseable event-id header yields event id 0, while a
syntactically valid but out-of-range decimal value yields the clamped
`int64` bound rather than 0; no case aborts request handling. -/
theorem C8_header_defaults :
    (∀ r : Request, headerGet r.header headerNameOpencensusSpan = "" →
        getSpanContext r = (zeroSpanContext, false))
    ∧ (∀ r : Request, base64DecodeString (headerGet r.header headerNameOpencensusSpan) = none →
        getSpanContext r = (zeroSpanContext, false))
    ∧ (∀ (r : Request) (bin : List Nat),
        base64DecodeString (headerGet r.header headerNameOpencensusSpan) = some bin →
        (FromBinary bin).2 = false → getSpanContext r = (zeroSpanContext, false))
    ∧ (∀ r : Request, (getSpanContext r).2 = false → spanOpenOps r = [SpanOp.startSpanRoot])
    ∧ (∀ r : Request, headerGet r.header headerNameOpencensusSpanEventIDKey = "" →
        addSpanMessageReceiveEvent r = [SpanOp.addMessageReceive 0 r.contentLength 0])
    ∧ (∀ s : String, (parseIntGo s).2 = some ParseErr.syntaxErr → (parseIntGo s).1 = 0) := by
  refine ⟨?_, ?_, ?_, ?_, ?_, parseIntGo_syntax_zero⟩
  · intro r h
    unfold getSpanContext
    rw [h]
    rfl
  · intro r h
    unfold getSpanContext
    by_cases h0 : headerGet r.header headerNameOpencensusSpan = ""
    · rw [h0]
      rfl
    · rw [if_neg h0, h]
  · intro r bin h1 h2
    unfold getSpanContext
    by_cases h0 : headerGet r.header headerNameOpencensusSpan = ""
    · rw [h0]
      rfl
    · rw [if_neg h0, h1]
      exact FromBinary_false bin h2
  · intro r h
    unfold spanOpenOps
    rw [if_neg (by rw [h]; exact Bool.false_ne_true)]
  · intro r h
    unfold addSpanMessageReceiveEvent
    rw [h]
    rfl

theorem C8_header_defaults_witness :
    getSpanContext
      { method := "GET", url := "/test", header := [], contentLength := 0,
        bodyBytes := [], bodyReadFails := false, bodyCloseFails := false }
      = (zeroSpanContext, false)
    ∧ getSpanContext
      { method := "GET", url := "/test",
        header := [(headerNameOpencensusSpan, "!!!!")], contentLength := 0,
        bodyBytes := [], bodyReadFails := false, bodyCloseFails := false }
      = (zeroSpanContext, false)
    ∧ getSpanContext
      { method := "GET", url := "/test",
        header := [(headerNameOpencensusSpan, "AQ==")], contentLength := 0,
        bodyBytes := [], bodyReadFails := false, bodyCloseFails := false }
      = (zeroSpanContext, false)
    ∧ spanOpenOps
      { method := "GET", url := "/test", header := [], contentLength := 0,
        bodyBytes := [], bodyReadFails := false, bodyCloseFails := false }
      = [SpanOp.startSpanRoot]
    ∧ addSpanMessageReceiveEvent
      { method := "GET", url := "/test", header := [], contentLength := 0,
        bodyBytes := [], bodyReadFails := false, bodyCloseFails := false }
      = [SpanOp.addMessageReceive 0 0 0]
    ∧ (parseIntGo "12a").1 = 0 :=
  ⟨C8_header_defaults.1 _ (by decide),
   C8_header_defaults.2.1 _ (by decide),
   C8_header_defaults.2.2.1 _ [1] (by decide) (by decide),
   C8_header_defaults.2.2.2.1 _ (by decide),
   C8_header_defaults.2.2.2.2.1 _ (by decide),
   C8_header_defaults.2.2.2.2.2 "12a" (by decide)⟩

/-- C10: for every context, event id and outgoing request,
`AddTracingSpanToRequest` leaves the request's method, URL, body, content
length and body-error state unchanged and changes at most the two headers
`X-Opencensus-Event-ID` and `X-Opencensus-Span`; when the context carries no
span it leaves the request entirely unchanged. -/
theorem C10_frame_effect (ctx : Option SpanContext) (eID : Int) (r : Request) :
    (AddTracingSpanToRequest ctx eID r).1.method = r.method
    ∧ (AddTracingSpanToRequest ctx eID r).1.url = r.url
    ∧ (AddTracingSpanToRequest ctx eID r).1.contentLength = r.contentLength
    ∧ (AddTracingSpanToRequest ctx eID r).1.bodyBytes = r.bodyBytes
    ∧ (AddTracingSpanToRequest ctx eID r).1.bodyReadFails = r.bodyReadFails
    ∧ (AddTracingSpanToRequest ctx eID r).1.bodyCloseFails = r.bodyCloseFails
    ∧ (∀ k : String, k ≠ headerNameOpencensusSpanEventIDKey → k ≠ headerNameOpencensusSpan →
        headerGet (AddTracingSpanToRequest ctx eID r).1.header k = headerGet r.header k)
    ∧ (ctx = none → (AddTracingSpanToRequest ctx eID r).1 = r) := by
  cases ctx with
  | none =>
      exact ⟨rfl, rfl, rfl, rfl, rfl, rfl, fun _ _ _ => rfl, fun _ => rfl⟩
  | some sc =>
      refine ⟨rfl, rfl, rfl, rfl, rfl, rfl, ?_, fun hc => by cases hc⟩
      intro k h1 h2
      show headerGet
        (headerSet
          (headerSet r.header headerNameOpencensusSpanEventIDKey (toString eID))
          headerNameOpencensusSpan (base64EncodeToString (Binary sc))) k
        = headerGet r.header k
      rw [headerGet_set_ne _ _ _ _ h2, headerGet_set_ne _ _ _ _ h1]

theorem C10_frame_effect_witness :
    (AddTracingSpanToRequest
      (some { traceID := List.replicate 16 1, spanID := List.replicate 8 2, traceOptions := 1 })
      7
      { method := "POST", url := "/out", header := [("Content-Type", "text/plain")],
        contentLength := 5, bodyBytes := [104, 101, 108, 108, 111], bodyReadFails := false,
        bodyCloseFails := false }).1.method = "POST"
    ∧ headerGet (AddTracingSpanToRequest
      (some { traceID := List.replicate 16 1, spanID := List.replicate 8 2, traceOptions := 1 })
      7
      { method := "POST", url := "/out", header := [("Content-Type", "text/plain")],
        contentLength := 5, bodyBytes := [104, 101, 108, 108, 111], bodyReadFails := false,
        bodyCloseFails := false }).1.header "Content-Type"
      = headerGet [("Content-Type", "text/plain")] "Content-Type"
    ∧ (AddTracingSpanToRequest none 7
      { method := "POST", url := "/out", header := [("Content-Type", "text/plain")],
        contentLength := 5, bodyBytes := [104, 101, 108, 108, 111], bodyReadFails := false,
        bodyCloseFails := false }).1
      = { method := "POST", url := "/out", header := [("Content-Type", "text/plain")],
          contentLength := 5, bodyBytes := [104, 101, 108, 108, 111], bodyReadFails := false,
          bodyCloseFails := false } :=
  ⟨(C10_frame_effect (some _) 7 _).1,
   (C10_frame_effect (some _) 7 _).2.2.2.2.2.2.1 "Content-Type" (by decide) (by decide),
   (C10_frame_effect none 7 _).2.2.2.2.2.2.2 rfl⟩
